import Mathlib

/-!
Verification of the ML1050STi / ML750i RS232 projector-control repository.

The development shallowly embeds the protocol engine of
`projector_control.py` (frame building, the response poll loop, the
success classifier, the response decoders), the system-information parser
of `projector_status.py`, and the volume-restore fragment of
`projector_config.py`.  Python strings are modelled as Lean `String`
(a list of characters, each standing for one byte of the ASCII wire
traffic); fallible Python code (uncaught exceptions) is modelled with
`Except`; `None` becomes `Option.none`.
-/

deriving instance DecidableEq for Except

namespace Proj

/-! ## Python string primitives

Small executable models of the Python string operations the repository
uses: `str.strip`, `str.startswith`, slicing `s[a:]` / `s[a:b]`,
indexing `s[i]` (which raises `IndexError` out of range), `int(...)`
(which raises `ValueError` on malformed input), `bytes.decode('ascii',
errors='ignore')` and `str.encode('ascii')`. -/

/-- Whitespace as `str.strip` and `int` see it (the payloads handled here
are ASCII, since every response passes through `decode('ascii',
errors='ignore')`). -/
def pyWs (c : Char) : Bool :=
  c == ' ' || c == '\t' || c == '\n' || c == '\r' || c == '\x0b' || c == '\x0c'

/-- Character-list core of `str.strip`: drop whitespace from both ends. -/
def stripL (l : List Char) : List Char :=
  ((l.dropWhile pyWs).reverse.dropWhile pyWs).reverse

/-- Python `s.strip()`. -/
def pyStrip (s : String) : String := String.mk (stripL s.data)

/-- Python `s.startswith(pre)`. -/
def pyStartsWith (pre s : String) : Bool := pre.data.isPrefixOf s.data

/-- Python `s[n:]`. -/
def pyDrop (s : String) (n : Nat) : String := String.mk (s.data.drop n)

/-- Python `s[a:b]` for non-negative bounds. -/
def pySlice (s : String) (a b : Nat) : String :=
  String.mk ((s.data.drop a).take (b - a))

/-- Digit run of a Python integer literal: base-10 digits with single
underscores allowed between digits (`digitsCore` continues a run whose
accumulated value is the first argument). -/
def digitsCore : Nat → List Char → Option Nat
  | acc, [] => some acc
  | acc, '_' :: d :: rest =>
      if d.isDigit then digitsCore (acc * 10 + (d.toNat - '0'.toNat)) rest else none
  | acc, d :: rest =>
      if d.isDigit then digitsCore (acc * 10 + (d.toNat - '0'.toNat)) rest else none

/-- Nonempty digit run (with internal underscores) as a `Nat`. -/
def digitsVal : List Char → Option Nat
  | [] => none
  | d :: rest =>
      if d.isDigit then digitsCore (d.toNat - '0'.toNat) rest else none

/-- Python `int(s)` on ASCII input: strip whitespace, optional sign,
nonempty digit run; `none` models the `ValueError` that `int` raises on
anything else. -/
def pyInt (s : String) : Option Int :=
  match stripL s.data with
  | [] => none
  | '-' :: rest => (digitsVal rest).map (fun n => -(n : Int))
  | '+' :: rest => (digitsVal rest).map (fun n => (n : Int))
  | l => (digitsVal l).map (fun n => (n : Int))

/-- Python `bytes.decode('ascii', errors='ignore')`: non-ASCII bytes are
dropped. -/
def asciiIgnore (l : List Char) : List Char := l.filter (fun c => c.toNat < 128)

/-- Python `s.encode('ascii')`: the byte values, or a `UnicodeEncodeError`
when a character is not 7-bit ASCII. -/
def pyEncodeAscii (s : String) : Except String (List Nat) :=
  if s.data.all (fun c => c.toNat < 128) then .ok (s.data.map Char.toNat)
  else .error "UnicodeEncodeError"

/-- Python substring containment `pat in l`. -/
def containsSub (pat : List Char) : List Char → Bool
  | [] => pat.isEmpty
  | c :: rest => pat.isPrefixOf (c :: rest) || containsSub pat rest

/-! ## Frame codec

`_send_command` builds `cmd_full = f"~{self.device_id}{command}\r"` and
writes `cmd_full.encode('ascii')` (projector_control.py lines 78-81). -/

/-- Wire frame for one command: `"~" + device_id + command + "\r"`. -/
def buildFrame (deviceId command : String) : String :=
  "~" ++ deviceId ++ command ++ "\r"

/-! ## Response reader

The poll loop of `_send_command` (projector_control.py lines 84-92):
up to 10 iterations, each starting with `time.sleep(0.1)` (real time,
outside the model); when bytes are waiting they are all read and
appended, and the loop breaks as soon as the accumulated buffer contains
`b'Ok'`, `b'P'` or `b'F'` anywhere.  The transport is modelled by the
list of chunks successive polls would find waiting (`[]` = nothing
waiting at that poll, and after the list is exhausted). -/

/-- Completion heuristic: the buffer contains `Ok`, `P` or `F`. -/
def hasMarker (l : List Char) : Bool :=
  containsSub ['O', 'k'] l || containsSub ['P'] l || containsSub ['F'] l

/-- One run of the poll loop with the given fuel (the attempt budget).
Returns the accumulated buffer and the number of polls performed.  A poll
that finds no waiting bytes (`in_waiting == 0`) appends nothing and does
not test the completion heuristic, exactly as in the source. -/
def pollLoop : Nat → List (List Char) → List Char → List Char × Nat
  | 0, _, acc => (acc, 0)
  | fuel + 1, chunks, acc =>
      let c := chunks.headD []
      if c.isEmpty then
        let r := pollLoop fuel chunks.tail acc
        (r.1, r.2 + 1)
      else
        let acc2 := acc ++ c
        if hasMarker acc2 then (acc2, 1)
        else
          let r := pollLoop fuel chunks.tail acc2
          (r.1, r.2 + 1)

/-- The buffer the reader returns (before the final decode and strip). -/
def respAcc (chunks : List (List Char)) : List Char := (pollLoop 10 chunks []).1

/-- Number of polls the reader performs on the given transport. -/
def pollCount (chunks : List (List Char)) : Nat := (pollLoop 10 chunks []).2

/-! ## Result classifier

`_check_success` (projector_control.py lines 94-96):
`return response == 'P' or response.startswith('Ok')`. -/

/-- The code's success check, `_check_success`. -/
def check_success (response : String) : Bool :=
  response == "P" || pyStartsWith "Ok" response

/-- Outcome of classifying a decoded response, per the spec (§3, §4.3). -/
inductive Outcome where
  | success : Outcome
  | failure : Outcome
  | data : String → Outcome
deriving DecidableEq

/-- Modelled from the spec: the Result Classifier of §4.3, written from the
spec's words for comparison with the code's `check_success` (the code
itself keeps only the boolean check and hands callers the raw string).
Exact `"P"` is Success; a string starting with `"Ok"` is Data carrying the
remainder; anything else is Failure. -/
def classify (s : String) : Outcome :=
  if s = "P" then Outcome.success
  else if pyStartsWith "Ok" s then Outcome.data (pyDrop s 2)
  else Outcome.failure

/-! ## Transport and exchanges

The serial port is modelled by the pending per-exchange poll chunks and a
log of the frames written.  `send_command` performs one exchange: it
builds the frame, appends it to the write log, runs the poll loop on the
next pending chunk sequence, and returns the decoded, stripped response
(`response.decode('ascii', errors='ignore').strip()`). -/

structure Transport where
  polls : List (List (List Char))
  writes : List String
deriving DecidableEq

/-- The `_send_command` method as a function of the transport state. -/
def send_command (deviceId command : String) (tr : Transport) : String × Transport :=
  let frame := buildFrame deviceId command
  let raw := respAcc (tr.polls.headD [])
  (pyStrip (String.mk (asciiIgnore raw)),
   { polls := tr.polls.tail, writes := tr.writes ++ [frame] })

/-- `power_on` (projector_control.py lines 100-103). -/
def power_on (deviceId : String) (tr : Transport) : Bool × Transport :=
  let r := send_command deviceId "00 1" tr
  (check_success r.1, r.2)

/-- `set_brightness` (projector_control.py lines 326-331): range check
`if not 0 <= value <= 10: return False` before any transport I/O. -/
def set_brightness (deviceId : String) (value : Int) (tr : Transport) :
    Bool × Transport :=
  if ¬(0 ≤ value ∧ value ≤ 10) then (false, tr)
  else
    let r := send_command deviceId ("21 " ++ toString value) tr
    (check_success r.1, r.2)

/-- `set_contrast` (projector_control.py lines 343-348). -/
def set_contrast (deviceId : String) (value : Int) (tr : Transport) :
    Bool × Transport :=
  if ¬(0 ≤ value ∧ value ≤ 10) then (false, tr)
  else
    let r := send_command deviceId ("22 " ++ toString value) tr
    (check_success r.1, r.2)

/-- `set_digital_zoom` (projector_control.py lines 448-456): range check
`if not 0 <= level <= 6: return False`. -/
def set_digital_zoom (deviceId : String) (level : Int) (tr : Transport) :
    Bool × Transport :=
  if ¬(0 ≤ level ∧ level ≤ 6) then (false, tr)
  else
    let r := send_command deviceId ("62 " ++ toString level) tr
    (check_success r.1, r.2)

/-! ## Response decoders (query operations)

Each getter is embedded as a function of the decoded response string
(the value `_send_command` returns).  Getters whose Python body can raise
an uncaught exception are given an `Except` result; `Except.error` names
the Python exception. -/

/-- Code-to-label table of `get_input_source` (projector_control.py
lines 198-201). -/
def source_map : List (String × String) :=
  [("7", "HDMI 1"), ("20", "Android Home (USB-A/SD Card)")]

/-- `get_input_source` (projector_control.py lines 193-203):
`source_map.get(code, f"Unknown ({code})")` over `code = response[2:]`. -/
def get_input_source (response : String) : Option String :=
  if pyStartsWith "Ok" response then
    let code := pyDrop response 2
    some ((source_map.lookup code).getD ("Unknown (" ++ code ++ ")"))
  else none

/-- Code-to-label table of `get_display_mode` (projector_control.py
lines 306-319). -/
def display_mode_map : List (String × String) :=
  [("1", "Presentation (PC)"), ("2", "Bright"), ("3", "Cinema"),
   ("4", "sRGB"), ("9", "3D"), ("12", "Game"), ("14", "Photo (Vivid)"),
   ("21", "HDR"), ("25", "HLG"), ("41", "AI-PQ"), ("42", "WCG"),
   ("43", "Eco")]

/-- `get_display_mode` (projector_control.py lines 302-322):
`mode_map.get(code, f"Unknown ({code})")` over `code = response[2:]`. -/
def get_display_mode (response : String) : Option String :=
  if pyStartsWith "Ok" response then
    let code := pyDrop response 2
    some ((display_mode_map.lookup code).getD ("Unknown (" ++ code ++ ")"))
  else none

/-- Code-to-label table of `get_projection_mode` (projector_control.py
lines 231-236), keyed by the single character `response[2]`. -/
def projection_mode_map : List (Char × String) :=
  [('0', "Front-Desktop"), ('1', "Rear-Desktop"),
   ('2', "Front-Ceiling"), ('3', "Rear-Ceiling")]

/-- `get_projection_mode` (projector_control.py lines 227-238):
`mode_map.get(response[2], 'Unknown')`.  Indexing `response[2]` raises
`IndexError` when the response is exactly `"Ok"`. -/
def get_projection_mode (response : String) : Except String (Option String) :=
  if pyStartsWith "Ok" response then
    match response.data[2]? with
    | some c => Except.ok (some ((projection_mode_map.lookup c).getD "Unknown"))
    | none => Except.error "IndexError"
  else Except.ok none

/-- Code-to-label table of `get_color_temperature` (projector_control.py
lines 381-385). -/
def color_temp_map : List (Char × String) :=
  [('2', "Standard (D75)"), ('3', "Warm (D65)"), ('5', "Cold (D83)")]

/-- `get_color_temperature` (projector_control.py lines 377-387):
`temp_map.get(response[2], 'Unknown')`. -/
def get_color_temperature (response : String) : Except String (Option String) :=
  if pyStartsWith "Ok" response then
    match response.data[2]? with
    | some c => Except.ok (some ((color_temp_map.lookup c).getD "Unknown"))
    | none => Except.error "IndexError"
  else Except.ok none

/-- Code-to-label table of `get_aspect_ratio` (projector_control.py
lines 415-420), keyed by the whole remainder `response[2:]`. -/
def aspect_ratio_map : List (String × String) :=
  [("1", "4:3"), ("2", "16:9"), ("3", "16:10"), ("7", "Auto")]

/-- `get_aspect_ratio` (projector_control.py lines 411-422):
`ratio_map.get(response[2:], 'Unknown')` — slicing never raises. -/
def get_aspect_ratio (response : String) : Option String :=
  if pyStartsWith "Ok" response then
    some ((aspect_ratio_map.lookup (pyDrop response 2)).getD "Unknown")
  else none

/-- Code-to-label table of `get_digital_zoom` (projector_control.py
lines 490-498). -/
def zoom_map : List (Char × String) :=
  [('0', "50%"), ('1', "75%"), ('2', "100%"), ('3', "125%"),
   ('4', "150%"), ('5', "175%"), ('6', "200%")]

/-- `get_digital_zoom` (projector_control.py lines 486-500):
`zoom_map.get(response[2], 'Unknown')`. -/
def get_digital_zoom (response : String) : Except String (Option String) :=
  if pyStartsWith "Ok" response then
    match response.data[2]? with
    | some c => Except.ok (some ((zoom_map.lookup c).getD "Unknown"))
    | none => Except.error "IndexError"
  else Except.ok none

/-- `get_brightness` (projector_control.py lines 333-341):
`int(response[2:])` inside `try`/`except`, so a malformed payload yields
`None` instead of raising. -/
def get_brightness (response : String) : Option Int :=
  if pyStartsWith "Ok" response then pyInt (pyDrop response 2) else none

/-- `get_contrast` (projector_control.py lines 350-358), same guarded
numeric decode as `get_brightness`. -/
def get_contrast (response : String) : Option Int :=
  if pyStartsWith "Ok" response then pyInt (pyDrop response 2) else none

/-- `get_volume` (projector_control.py lines 514-522), same guarded
numeric decode. -/
def get_volume (response : String) : Option Int :=
  if pyStartsWith "Ok" response then pyInt (pyDrop response 2) else none

/-! ## System-information compound decoders -/

/-- The record `get_system_info` builds (its `info` dict); a field is
`none` when the corresponding key is absent. -/
structure SystemInfo where
  power : Option String
  lamp_hours : Option Int
  input_source : Option String
  firmware : Option String
  picture_mode : Option String
deriving DecidableEq

/-- The empty `info` dict. -/
def SystemInfo.empty : SystemInfo := ⟨none, none, none, none, none⟩

/-- Source table of `get_system_info` (projector_control.py lines 582-585). -/
def info_source_map : List (String × String) :=
  [("07", "HDMI 1"), ("20", "Android Home (USB-A/SD Card)")]

/-- Picture-mode table of `get_system_info` (projector_control.py
lines 592-599). -/
def info_mode_map : List (String × String) :=
  [("01", "Presentation (PC)"), ("02", "Bright"), ("03", "Cinema"),
   ("04", "sRGB"), ("14", "Photo (Vivid)"), ("28", "Eco")]

/-- `get_system_info` (projector_control.py lines 569-602).  The guard is
`response.startswith('Ok') and len(response) >= 15`, under which
`data = response[2:]` has at least 13 characters, so `data[0]` cannot
raise; but `int(data[1:6])` is not guarded by `try`, so a non-numeric
lamp-hours field raises `ValueError` and loses the whole record. -/
def get_system_info (response : String) : Except String SystemInfo :=
  if pyStartsWith "Ok" response = true ∧ 15 ≤ response.data.length then
    let data := pyDrop response 2
    let power := if data.data.getD 0 ' ' = '1' then "On" else "Off"
    match pyInt (pySlice data 1 6) with
    | none => Except.error "ValueError"
    | some lamp =>
        let sourceCode := pySlice data 6 8
        let source :=
          (info_source_map.lookup sourceCode).getD ("Unknown (" ++ sourceCode ++ ")")
        let firmware := pySlice data 8 12
        if 14 ≤ data.data.length then
          let modeCode := pySlice data 12 14
          Except.ok ⟨some power, some lamp, some source, some firmware,
            some ((info_mode_map.lookup modeCode).getD ("Unknown (" ++ modeCode ++ ")"))⟩
        else
          Except.ok ⟨some power, some lamp, some source, some firmware, none⟩
  else Except.ok SystemInfo.empty

/-- The dict `parse_system_info` builds (projector_status.py lines 57-94). -/
structure ParsedInfo where
  power_status : String
  lamp_hours : String
  input_source_code : String
  firmware_version : String
  picture_mode_code : String
  input_source : String
  picture_mode : String
deriving DecidableEq

/-- Source table of `parse_system_info` (projector_status.py lines 74-77). -/
def status_source_map : List (String × String) :=
  [("07", "HDMI 1"), ("20", "Android (USB-A/SD Card/Home)")]

/-- Picture-mode table of `parse_system_info` (projector_status.py
lines 81-89). -/
def status_mode_map : List (String × String) :=
  [("01", "Presentation (PC)"), ("02", "Bright"), ("03", "Cinema"),
   ("04", "sRGB"), ("14", "Photo (Vivid)"), ("28", "Eco"),
   ("29", "iDevice")]

/-- `parse_system_info` (projector_status.py lines 57-94): pure slicing
and table lookups, `None` whenever the response does not start with `Ok`
or the payload is shorter than 13 characters. -/
def parse_system_info (response : String) : Option ParsedInfo :=
  if pyStartsWith "Ok" response then
    let data := pyDrop response 2
    if 13 ≤ data.data.length then
      some
        { power_status := if data.data.getD 0 ' ' = '1' then "On" else "Off"
          lamp_hours := pySlice data 1 6
          input_source_code := pySlice data 6 8
          firmware_version := pySlice data 8 12
          picture_mode_code :=
            if 14 ≤ data.data.length then pySlice data 12 14 else "N/A"
          input_source :=
            (status_source_map.lookup (pySlice data 6 8)).getD
              ("Unknown (" ++ pySlice data 6 8 ++ ")")
          picture_mode :=
            (status_mode_map.lookup (pySlice data 12 14)).getD
              ("Unknown (" ++ pySlice data 12 14 ++ ")") }
    else none
  else none

/-! ## Volume restore (projector_config.py, `apply_config` lines 263-277)

Volume has no absolute setter; `apply_config` reads the current volume,
computes the difference to the stored target and issues that many
`volume_up` / `volume_down` exchanges, discarding each step's boolean
result, then unconditionally appends the volume item to the `success`
list.  `responses` below is the transport's reply to each step exchange
in order; the booleans `volume_up`/`volume_down` would return are the
`step_results` field, which no other field depends on. -/

inductive VolStep where
  | up : VolStep
  | down : VolStep
deriving DecidableEq

/-- Result of the volume fragment of `apply_config`: the step exchanges
issued, the discarded per-step booleans, and the `success` / `failed`
entries recorded for the volume item. -/
structure ApplyVolumeResult where
  steps : List VolStep
  step_results : List Bool
  success : List String
  failed : List String
deriving DecidableEq

/-- The volume fragment of `apply_config` (projector_config.py
lines 263-277).  `current` is what `get_volume` returned, `target` the
stored config value; nothing at all is recorded when either is `None`. -/
def apply_config_volume (current target : Option Int) (responses : List String) :
    ApplyVolumeResult :=
  match current, target with
  | some c, some t =>
      if t > c then
        let n := (t - c).toNat
        { steps := List.replicate n VolStep.up
          step_results := (responses.take n).map check_success
          success := ["audio.volume=" ++ toString t]
          failed := [] }
      else if t < c then
        let n := (c - t).toNat
        { steps := List.replicate n VolStep.down
          step_results := (responses.take n).map check_success
          success := ["audio.volume=" ++ toString t]
          failed := [] }
      else
        { steps := []
          step_results := []
          success := ["audio.volume=" ++ toString t ++ " (unchanged)"]
          failed := [] }
  | _, _ => { steps := [], step_results := [], success := [], failed := [] }

/-! ## Helper lemmas -/

theorem strExt {a b : String} (h : a.data = b.data) : a = b := by
  cases a; cases b; cases h; rfl

theorem strEta (s : String) : String.mk s.data = s := by cases s; rfl

theorem data_Ok : ("Ok" : String).data = ['O', 'k'] := rfl

theorem isPrefixOf_Ok (l : List Char) :
    (['O', 'k'] : List Char).isPrefixOf ('O' :: 'k' :: l) = true := by
  simp [List.isPrefixOf]

theorem pyStartsWith_Ok_append (code : String) :
    pyStartsWith "Ok" ("Ok" ++ code) = true := by
  unfold pyStartsWith
  rw [String.data_append, data_Ok]
  exact isPrefixOf_Ok code.data

theorem pyDrop_two_append (code : String) : pyDrop ("Ok" ++ code) 2 = code := by
  unfold pyDrop
  rw [String.data_append, data_Ok]
  exact strEta code

theorem startsWith_Ok_ne_P {s : String} (h : pyStartsWith "Ok" s = true) :
    s ≠ "P" := by
  intro he
  subst he
  exact absurd h (by decide)

/-! ## Claims -/

/-- C1: classification of a decoded response assigns exactly one outcome —
the exact string `"P"` is Success, a string starting with `"Ok"` is Data
carrying the remainder after the prefix (empty remainder included), and
any other string is Failure — and every setter returns `true` exactly when
the response is `"P"` or starts with `"Ok"` (the single check
`_check_success`). -/
theorem c1_classifier_and_setter_success :
    (∀ s, classify s = Outcome.success ↔ s = "P")
    ∧ (∀ s p, classify s = Outcome.data p ↔
        (pyStartsWith "Ok" s = true ∧ p = pyDrop s 2))
    ∧ (∀ s, classify s = Outcome.failure ↔
        (s ≠ "P" ∧ pyStartsWith "Ok" s = false))
    ∧ classify "Ok" = Outcome.data ""
    ∧ (∀ s, check_success s = true ↔ (s = "P" ∨ pyStartsWith "Ok" s = true))
    ∧ (∀ s, check_success s = true ↔ classify s ≠ Outcome.failure)
    ∧ (∀ deviceId tr,
        (power_on deviceId tr).1 = check_success (send_command deviceId "00 1" tr).1)
    ∧ (∀ deviceId (v : Int) tr, 0 ≤ v → v ≤ 10 →
        (set_brightness deviceId v tr).1 =
          check_success (send_command deviceId ("21 " ++ toString v) tr).1)
    ∧ (set_brightness "00" 5 ⟨[[['P']]], []⟩).1 = true
    ∧ (set_brightness "00" 5 ⟨[[['F']]], []⟩).1 = false := by
  refine ⟨?_, ?_, ?_, by decide, ?_, ?_, fun _ _ => rfl, ?_, by decide, by decide⟩
  · intro s
    by_cases h : s = "P"
    · simp [classify, h]
    · by_cases h2 : pyStartsWith "Ok" s = true
      · simp [classify, h, h2]
      · simp [classify, h, h2]
  · intro s p
    by_cases h : s = "P"
    · subst h
      simp [classify, (by decide : pyStartsWith "Ok" "P" = false)]
    · by_cases h2 : pyStartsWith "Ok" s = true
      · simp [classify, h, h2, eq_comm]
      · simp [classify, h, h2]
  · intro s
    by_cases h : s = "P"
    · simp [classify, h]
    · by_cases h2 : pyStartsWith "Ok" s = true
      · simp [classify, h, h2]
      · simp [classify, h, h2]
  · intro s
    simp [check_success, Bool.or_eq_true, beq_iff_eq]
  · intro s
    by_cases h : s = "P"
    · subst h; decide
    · by_cases h2 : pyStartsWith "Ok" s = true
      · simp [check_success, classify, h, h2]
      · simp [check_success, classify, h, h2]
  · intro d v tr h1 h2
    have hin : ¬¬(0 ≤ v ∧ v ≤ 10) := not_not_intro ⟨h1, h2⟩
    simp only [set_brightness, if_neg hin]

/-- C2: the transmitted frame is exactly the ASCII encoding of `~` +
address + feature-code digits + space + sub-code digits (+ space +
decimal argument when present), terminated by a single carriage-return
byte and nothing else. -/
theorem c2_frame_format :
    (∀ addr feature sub : String,
      buildFrame addr (feature ++ " " ++ sub) =
        "~" ++ addr ++ feature ++ " " ++ sub ++ "\r")
    ∧ (∀ (addr feature sub : String) (arg : Int),
      buildFrame addr (feature ++ " " ++ sub ++ " " ++ toString arg) =
        "~" ++ addr ++ feature ++ " " ++ sub ++ " " ++ toString arg ++ "\r")
    ∧ (∀ deviceId (v : Int) tr, 0 ≤ v → v ≤ 10 →
      ((set_brightness deviceId v tr).2).writes =
        tr.writes ++ [buildFrame deviceId ("21 " ++ toString v)])
    ∧ (∀ addr cmd : String,
      addr.data.all (fun c => c.toNat < 128) = true →
      cmd.data.all (fun c => c.toNat < 128) = true →
      pyEncodeAscii (buildFrame addr cmd) =
        Except.ok ((("~" ++ addr ++ cmd).data.map Char.toNat) ++ [13]))
    ∧ (∀ addr cmd : String,
      (buildFrame addr cmd).data.count '\r' =
        addr.data.count '\r' + cmd.data.count '\r' + 1)
    ∧ buildFrame "00" ("21 " ++ toString (5 : Int)) = "~0021 5\r"
    ∧ ((set_brightness "00" 5 ⟨[], []⟩).2).writes = ["~0021 5\r"] := by
  refine ⟨?_, ?_, ?_, ?_, ?_, by decide, by decide⟩
  · intro addr feature sub
    apply strExt
    simp [buildFrame, String.data_append]
  · intro addr feature sub arg
    apply strExt
    simp [buildFrame, String.data_append]
  · intro d v tr h1 h2
    have hin : ¬¬(0 ≤ v ∧ v ≤ 10) := not_not_intro ⟨h1, h2⟩
    simp only [set_brightness, if_neg hin, send_command]
  · intro addr cmd h1 h2
    have hall : (buildFrame addr cmd).data.all (fun c => c.toNat < 128) = true := by
      simp [buildFrame, String.data_append, List.all_append, h1, h2]
    simp only [pyEncodeAscii, hall, if_pos]
    simp [buildFrame, String.data_append, List.map_append]
  · intro addr cmd
    simp [buildFrame, String.data_append, List.count_append]
    omega

/-- C3: a bounded setter called with an out-of-range argument (brightness
or contrast outside 0..10, digital-zoom level outside 0..6) returns
`false` synchronously with the transport untouched — in particular no
frame is ever written. -/
theorem c3_out_of_range_rejected_before_io :
    (∀ deviceId (v : Int) tr, ¬(0 ≤ v ∧ v ≤ 10) →
      set_brightness deviceId v tr = (false, tr))
    ∧ (∀ deviceId (v : Int) tr, ¬(0 ≤ v ∧ v ≤ 10) →
      set_contrast deviceId v tr = (false, tr))
    ∧ (∀ deviceId (l : Int) tr, ¬(0 ≤ l ∧ l ≤ 6) →
      set_digital_zoom deviceId l tr = (false, tr))
    ∧ set_brightness "00" 11 ⟨[], []⟩ = (false, ⟨[], []⟩)
    ∧ set_brightness "00" (-1) ⟨[], []⟩ = (false, ⟨[], []⟩)
    ∧ set_digital_zoom "00" 7 ⟨[], []⟩ = (false, ⟨[], []⟩)
    ∧ (∀ deviceId (v : Int) tr, ¬(0 ≤ v ∧ v ≤ 10) →
      ((set_brightness deviceId v tr).2).writes = tr.writes) := by
  refine ⟨?_, ?_, ?_, by decide, by decide, by decide, ?_⟩
  · intro d v tr h
    simp only [set_brightness, if_pos h]
  · intro d v tr h
    simp only [set_contrast, if_pos h]
  · intro d l tr h
    simp only [set_digital_zoom, if_pos h]
  · intro d v tr h
    simp only [set_brightness, if_pos h]

/-! ## Poll-loop lemmas (for C4) -/

theorem pollLoop_count_le (fuel : Nat) (chunks : List (List Char)) (acc : List Char) :
    (pollLoop fuel chunks acc).2 ≤ fuel := by
  induction fuel generalizing chunks acc with
  | zero => simp [pollLoop]
  | succ n ih =>
    simp only [pollLoop]
    by_cases h : (chunks.headD []).isEmpty
    · simp only [if_pos h]
      have := ih chunks.tail acc
      omega
    · simp only [if_neg h]
      by_cases h2 : hasMarker (acc ++ chunks.headD []) = true
      · simp only [if_pos h2]
        omega
      · simp only [if_neg h2]
        have := ih chunks.tail (acc ++ chunks.headD [])
        omega

theorem pollLoop_acc_eq (fuel : Nat) (chunks : List (List Char)) (acc : List Char) :
    (pollLoop fuel chunks acc).1 =
      acc ++ (chunks.take (pollLoop fuel chunks acc).2).flatten := by
  induction fuel generalizing chunks acc with
  | zero => simp [pollLoop]
  | succ n ih =>
    cases chunks with
    | nil =>
      simp only [pollLoop, List.headD_nil, List.isEmpty_nil, if_pos, List.tail_nil]
      have := ih [] acc
      simpa using this
    | cons c rest =>
      by_cases hc : c.isEmpty
      · have hc' : c = [] := List.isEmpty_iff.mp hc
        subst hc'
        simp only [pollLoop, List.headD_cons, List.isEmpty_nil, if_pos, List.tail_cons]
        have := ih rest acc
        simpa using this
      · simp only [pollLoop, List.headD_cons, if_neg hc, List.tail_cons]
        by_cases h2 : hasMarker (acc ++ c) = true
        · simp [if_pos h2]
        · simp only [if_neg h2]
          have := ih rest (acc ++ c)
          simp only [List.take_succ_cons, List.flatten_cons, ← List.append_assoc]
          exact this

theorem pollLoop_stop_marker (fuel : Nat) (chunks : List (List Char)) (acc : List Char) :
    (pollLoop fuel chunks acc).2 < fuel →
      hasMarker (pollLoop fuel chunks acc).1 = true := by
  induction fuel generalizing chunks acc with
  | zero => simp [pollLoop]
  | succ n ih =>
    simp only [pollLoop]
    by_cases h : (chunks.headD []).isEmpty
    · simp only [if_pos h]
      intro hlt
      exact ih chunks.tail acc (by omega)
    · simp only [if_neg h]
      by_cases h2 : hasMarker (acc ++ chunks.headD []) = true
      · simp only [if_pos h2]
        intro _
        exact h2
      · simp only [if_neg h2]
        intro hlt
        exact ih chunks.tail (acc ++ chunks.headD []) (by omega)

theorem pollLoop_no_earlier_marker (fuel : Nat) (chunks : List (List Char))
    (acc : List Char) (hacc : hasMarker acc = false) :
    ∀ j < (pollLoop fuel chunks acc).2,
      hasMarker (acc ++ (chunks.take j).flatten) = false := by
  induction fuel generalizing chunks acc with
  | zero => simp [pollLoop]
  | succ n ih =>
    cases chunks with
    | nil =>
      intro j _
      simpa using hacc
    | cons c rest =>
      by_cases hc : c.isEmpty
      · have hc' : c = [] := List.isEmpty_iff.mp hc
        subst hc'
        simp only [pollLoop, List.headD_cons, List.isEmpty_nil, if_pos, List.tail_cons]
        intro j hj
        cases j with
        | zero => simpa using hacc
        | succ j' =>
          simp only [List.take_succ_cons, List.flatten_cons, List.nil_append]
          exact ih rest acc hacc j' (by omega)
      · simp only [pollLoop, List.headD_cons, if_neg hc, List.tail_cons]
        by_cases h2 : hasMarker (acc ++ c) = true
        · simp only [if_pos h2]
          intro j hj
          have : j = 0 := by omega
          subst this
          simpa using hacc
        · simp only [if_neg h2]
          intro j hj
          cases j with
          | zero => simpa using hacc
          | succ j' =>
            simp only [List.take_succ_cons, List.flatten_cons, ← List.append_assoc]
            exact ih rest (acc ++ c) (by simpa using h2) j' (by omega)

theorem pollLoop_all_empty (fuel : Nat) (chunks : List (List Char)) (acc : List Char)
    (h : ∀ c ∈ chunks, c = []) :
    pollLoop fuel chunks acc = (acc, fuel) := by
  induction fuel generalizing chunks with
  | zero => simp [pollLoop]
  | succ n ih =>
    cases chunks with
    | nil =>
      simp only [pollLoop, List.headD_nil, List.isEmpty_nil, if_pos, List.tail_nil]
      rw [ih [] (by simp)]
    | cons c rest =>
      have hc : c = [] := h c (List.mem_cons_self c rest)
      subst hc
      simp only [pollLoop, List.headD_cons, List.isEmpty_nil, if_pos, List.tail_cons]
      rw [ih rest (fun x hx => h x (List.mem_cons_of_mem _ hx))]

/-- C4: the response reader polls at most 10 times; it appends every byte
the polls it performed found, stops early exactly when the accumulated
buffer first contains `Ok`, `P` or `F`, and when the budget runs out it
returns whatever accumulated — a transport that never yields bytes gives
the empty buffer after exactly 10 polls.  (The fixed 100 ms sleep before
each poll is real time, outside the model.) -/
theorem c4_response_reader_poll_budget :
    (∀ chunks, pollCount chunks ≤ 10)
    ∧ (∀ chunks, respAcc chunks = (chunks.take (pollCount chunks)).flatten)
    ∧ (∀ chunks, pollCount chunks < 10 → hasMarker (respAcc chunks) = true)
    ∧ (∀ chunks, ∀ j < pollCount chunks, hasMarker (chunks.take j).flatten = false)
    ∧ (∀ chunks, (∀ c ∈ chunks, c = []) →
        respAcc chunks = [] ∧ pollCount chunks = 10)
    ∧ respAcc [] = [] ∧ pollCount [] = 10
    ∧ respAcc [[], ['O'], ['k', '1']] = ['O', 'k', '1']
    ∧ pollCount [[], ['O'], ['k', '1']] = 3 := by
  refine ⟨?_, ?_, ?_, ?_, ?_, by decide, by decide, by decide, by decide⟩
  · intro chunks
    exact pollLoop_count_le 10 chunks []
  · intro chunks
    have := pollLoop_acc_eq 10 chunks []
    simpa [respAcc, pollCount] using this
  · intro chunks h
    exact pollLoop_stop_marker 10 chunks [] h
  · intro chunks j hj
    have := pollLoop_no_earlier_marker 10 chunks [] (by decide) j hj
    simpa using this
  · intro chunks h
    have := pollLoop_all_empty 10 chunks [] h
    constructor
    · simp [respAcc, this]
    · simp [pollCount, this]

theorem pyStartsWith_Ok_mk (l : List Char) :
    pyStartsWith "Ok" (String.mk ('O' :: 'k' :: l)) = true := by
  unfold pyStartsWith
  exact isPrefixOf_Ok l

/-- C5 counterexample: `get_projection_mode` maps the unknown code `'9'`
to the bare label `"Unknown"`, which does not contain the raw code as a
substring — refuting the claim that every enumerated-label query embeds
the unknown code in its label. -/
theorem c5_counterexample :
    get_projection_mode "Ok9" = Except.ok (some "Unknown")
    ∧ containsSub ['9'] ("Unknown" : String).data = false := by
  exact ⟨rfl, by decide⟩

/-- C5 (amended): only `get_input_source` and `get_display_mode` embed an
unknown code in their label (`"Unknown (<code>)"`); `get_projection_mode`,
`get_color_temperature` and `get_digital_zoom` map an unknown
single-character code to the bare label `"Unknown"` (dropping the code)
and raise `IndexError` on the empty payload `"Ok"`, and
`get_aspect_ratio` maps unknown codes to bare `"Unknown"` without
raising. -/
theorem c5_unknown_code_labels :
    (∀ code : String, source_map.lookup code = none →
      get_input_source ("Ok" ++ code) = some ("Unknown (" ++ code ++ ")"))
    ∧ (∀ code : String, display_mode_map.lookup code = none →
      get_display_mode ("Ok" ++ code) = some ("Unknown (" ++ code ++ ")"))
    ∧ (∀ c : Char, projection_mode_map.lookup c = none →
      get_projection_mode (String.mk ['O', 'k', c]) = Except.ok (some "Unknown"))
    ∧ (∀ c : Char, color_temp_map.lookup c = none →
      get_color_temperature (String.mk ['O', 'k', c]) = Except.ok (some "Unknown"))
    ∧ (∀ c : Char, zoom_map.lookup c = none →
      get_digital_zoom (String.mk ['O', 'k', c]) = Except.ok (some "Unknown"))
    ∧ (∀ code : String, aspect_ratio_map.lookup code = none →
      get_aspect_ratio ("Ok" ++ code) = some "Unknown")
    ∧ get_projection_mode "Ok" = Except.error "IndexError"
    ∧ get_color_temperature "Ok" = Except.error "IndexError"
    ∧ get_digital_zoom "Ok" = Except.error "IndexError"
    ∧ get_input_source "Ok99" = some "Unknown (99)" := by
  refine ⟨?_, ?_, ?_, ?_, ?_, ?_, rfl, rfl, rfl, rfl⟩
  · intro code h
    simp [get_input_source, pyStartsWith_Ok_append code, pyDrop_two_append code, h]
  · intro code h
    simp [get_display_mode, pyStartsWith_Ok_append code, pyDrop_two_append code, h]
  · intro c h
    have h2 : (String.mk ['O', 'k', c]).data[2]? = some c := rfl
    simp [get_projection_mode, pyStartsWith_Ok_mk, h2, h]
  · intro c h
    have h2 : (String.mk ['O', 'k', c]).data[2]? = some c := rfl
    simp [get_color_temperature, pyStartsWith_Ok_mk, h2, h]
  · intro c h
    have h2 : (String.mk ['O', 'k', c]).data[2]? = some c := rfl
    simp [get_digital_zoom, pyStartsWith_Ok_mk, h2, h]
  · intro code h
    simp [get_aspect_ratio, pyStartsWith_Ok_append code, pyDrop_two_append code, h]

/-- C6 counterexample: the response `"Ok"` is classified as Data with an
empty payload, yet `get_color_temperature` raises `IndexError` on it —
refuting the claim that the decode step of every query never raises on a
Data-classified response. -/
theorem c6_counterexample :
    classify "Ok" = Outcome.data ""
    ∧ get_color_temperature "Ok" = Except.error "IndexError" := by
  exact ⟨by decide, rfl⟩

/-- C6 (amended): the numeric getters guarded by `try`/`except`
(brightness, contrast, volume) never raise — a malformed payload yields
`None` — and slicing-based getters are total; but `get_projection_mode`,
`get_color_temperature` and `get_digital_zoom` raise `IndexError` on the
empty-payload response `"Ok"` (they are exception-free once the payload
is nonempty), and `get_system_info` raises `ValueError` on a non-numeric
lamp-hours field. -/
theorem c6_decode_failure_handling :
    (∀ s, pyStartsWith "Ok" s = true → pyInt (pyDrop s 2) = none →
      get_brightness s = none)
    ∧ (∀ s, pyStartsWith "Ok" s = true → pyInt (pyDrop s 2) = none →
      get_contrast s = none)
    ∧ (∀ s, pyStartsWith "Ok" s = true → pyInt (pyDrop s 2) = none →
      get_volume s = none)
    ∧ get_brightness "Okab" = none
    ∧ get_brightness "Ok" = none
    ∧ get_projection_mode "Ok" = Except.error "IndexError"
    ∧ get_digital_zoom "Ok" = Except.error "IndexError"
    ∧ (∀ s c, s.data[2]? = some c → pyStartsWith "Ok" s = true →
      get_projection_mode s =
        Except.ok (some ((projection_mode_map.lookup c).getD "Unknown")))
    ∧ (∀ s, pyStartsWith "Ok" s = true → 15 ≤ s.data.length →
      pyInt (pySlice (pyDrop s 2) 1 6) = none →
      get_system_info s = Except.error "ValueError")
    ∧ get_system_info "Okxyyyyy0772001001" = Except.error "ValueError" := by
  refine ⟨?_, ?_, ?_, rfl, rfl, rfl, rfl, ?_, ?_, rfl⟩
  · intro s h1 h2
    simp [get_brightness, h1, h2]
  · intro s h1 h2
    simp [get_contrast, h1, h2]
  · intro s h1 h2
    simp [get_volume, h1, h2]
  · intro s c h2 h1
    simp [get_projection_mode, h1, h2]
  · intro s h1 h3 h2
    simp only [get_system_info, if_pos (And.intro h1 h3), h2]

/-- C7 counterexample: `_check_success` maps the empty response and the
failure sentinel `"F"` to the very same value `false` — the two inputs
are not classified to distinguishable values. -/
theorem c7_counterexample :
    check_success "" = check_success "F" ∧ check_success "" = false := by
  exact ⟨rfl, rfl⟩

/-- C7 (amended): the code's only classifier is the boolean
`_check_success`, which collapses the empty response and the failure
sentinel `"F"` to the same value `false` (it is `false` exactly on the
non-`"P"`, non-`"Ok"`-prefixed strings); the two cases stay
distinguishable only in the raw response string `_send_command` hands the
caller, since `"" ≠ "F"`. -/
theorem c7_classifier_collapses_empty_and_failure :
    check_success "" = false
    ∧ check_success "F" = false
    ∧ (∀ s, check_success s = false ↔ (s ≠ "P" ∧ pyStartsWith "Ok" s = false))
    ∧ ("" : String) ≠ "F" := by
  refine ⟨rfl, rfl, ?_, by decide⟩
  intro s
  rw [← Bool.not_eq_true]
  simp [check_success, beq_iff_eq, not_or]

/-- C8 counterexample: a Data payload of 16 characters whose lamp-hours
field is non-numeric makes `get_system_info` raise `ValueError`, losing
every field of the record — the sub-fields are not decoded
independently. -/
theorem c8_counterexample :
    get_system_info "Ok1abcde7072001001" = Except.error "ValueError"
    ∧ pyStartsWith "Ok" "Ok1abcde7072001001" = true
    ∧ 13 ≤ (pyDrop "Ok1abcde7072001001" 2).data.length := by
  exact ⟨rfl, rfl, by decide⟩

/-- C8 (amended): both system-info decoders reject a short payload as a
whole-record failure (`parse_system_info` returns `None` below 13 payload
characters, `get_system_info` an empty record below 15 response
characters) and slice fixed offsets 0, 1-5, 6-7, 8-11, 12-13; an unknown
source code becomes `"Unknown (<code>)"` without failing the record; but
in `get_system_info` the lamp-hours field is converted by an unguarded
`int()`, so only payloads with a numeric lamp-hours field decode to a
record — the sub-fields of `get_system_info` are not fully independent. -/
theorem c8_system_info_compound_decode :
    (∀ r, pyStartsWith "Ok" r = true → (pyDrop r 2).data.length < 13 →
      parse_system_info r = none)
    ∧ (∀ r, pyStartsWith "Ok" r = false → parse_system_info r = none)
    ∧ (∀ r, r.data.length < 15 → get_system_info r = Except.ok SystemInfo.empty)
    ∧ parse_system_info "Ok1001237072001001" =
        some ⟨"On", "00123", "70", "7200", "10", "Unknown (70)", "Unknown (10)"⟩
    ∧ get_system_info "Ok1001237072001001" =
        Except.ok ⟨some "On", some 123, some "Unknown (70)", some "7200",
          some "Unknown (10)"⟩
    ∧ (∀ r, pyStartsWith "Ok" r = true → 13 ≤ (pyDrop r 2).data.length →
      ∃ info, parse_system_info r = some info
        ∧ info.input_source = (status_source_map.lookup (pySlice (pyDrop r 2) 6 8)).getD
            ("Unknown (" ++ pySlice (pyDrop r 2) 6 8 ++ ")")
        ∧ info.firmware_version = pySlice (pyDrop r 2) 8 12
        ∧ info.lamp_hours = pySlice (pyDrop r 2) 1 6)
    ∧ (∀ r n, pyStartsWith "Ok" r = true → 15 ≤ r.data.length →
      pyInt (pySlice (pyDrop r 2) 1 6) = some n →
      ∃ info, get_system_info r = Except.ok info
        ∧ info.lamp_hours = some n
        ∧ info.input_source = some ((info_source_map.lookup (pySlice (pyDrop r 2) 6 8)).getD
            ("Unknown (" ++ pySlice (pyDrop r 2) 6 8 ++ ")"))
        ∧ info.firmware = some (pySlice (pyDrop r 2) 8 12)) := by
  refine ⟨?_, ?_, ?_, rfl, rfl, ?_, ?_⟩
  · intro r h1 h2
    have h2a : ¬ 13 ≤ (pyDrop r 2).data.length := by omega
    have h2b : ¬ 13 ≤ (pyDrop r 2).length := h2a
    simp [parse_system_info, h1, h2a, h2b]
  · intro r h1
    simp [parse_system_info, h1]
  · intro r h
    have h' : ¬ (pyStartsWith "Ok" r = true ∧ 15 ≤ r.data.length) := by
      intro hc
      omega
    simp only [get_system_info, if_neg h']
  · intro r h1 h2
    have heq : parse_system_info r = some
        { power_status := if (pyDrop r 2).data.getD 0 ' ' = '1' then "On" else "Off"
          lamp_hours := pySlice (pyDrop r 2) 1 6
          input_source_code := pySlice (pyDrop r 2) 6 8
          firmware_version := pySlice (pyDrop r 2) 8 12
          picture_mode_code :=
            if 14 ≤ (pyDrop r 2).data.length then pySlice (pyDrop r 2) 12 14 else "N/A"
          input_source := (status_source_map.lookup (pySlice (pyDrop r 2) 6 8)).getD
            ("Unknown (" ++ pySlice (pyDrop r 2) 6 8 ++ ")")
          picture_mode := (status_mode_map.lookup (pySlice (pyDrop r 2) 12 14)).getD
            ("Unknown (" ++ pySlice (pyDrop r 2) 12 14 ++ ")") } := by
      simp only [parse_system_info, h1, if_pos h2, if_true]
    exact ⟨_, heq, rfl, rfl, rfl⟩
  · intro r n h1 h3 h2
    by_cases h4 : 14 ≤ (pyDrop r 2).data.length
    · have heq : get_system_info r = Except.ok
          ⟨some (if (pyDrop r 2).data.getD 0 ' ' = '1' then "On" else "Off"), some n,
           some ((info_source_map.lookup (pySlice (pyDrop r 2) 6 8)).getD
             ("Unknown (" ++ pySlice (pyDrop r 2) 6 8 ++ ")")),
           some (pySlice (pyDrop r 2) 8 12),
           some ((info_mode_map.lookup (pySlice (pyDrop r 2) 12 14)).getD
             ("Unknown (" ++ pySlice (pyDrop r 2) 12 14 ++ ")"))⟩ := by
        simp only [get_system_info, if_pos (And.intro h1 h3), h2, if_pos h4]
      exact ⟨_, heq, rfl, rfl, rfl⟩
    · have heq : get_system_info r = Except.ok
          ⟨some (if (pyDrop r 2).data.getD 0 ' ' = '1' then "On" else "Off"), some n,
           some ((info_source_map.lookup (pySlice (pyDrop r 2) 6 8)).getD
             ("Unknown (" ++ pySlice (pyDrop r 2) 6 8 ++ ")")),
           some (pySlice (pyDrop r 2) 8 12), none⟩ := by
        simp only [get_system_info, if_pos (And.intro h1 h3), h2, if_neg h4]
      exact ⟨_, heq, rfl, rfl, rfl⟩

/-- C9: restoring an absolute volume target issues exactly
`|target - current|` step exchanges — 4 ups from 3 to 7, 2 downs from 3
to 1, and none when target equals current. -/
theorem c9_volume_step_sequencing :
    (∀ rs, (apply_config_volume (some 3) (some 7) rs).steps =
      List.replicate 4 VolStep.up)
    ∧ (∀ rs, (apply_config_volume (some 3) (some 1) rs).steps =
      List.replicate 2 VolStep.down)
    ∧ (∀ (v : Int) rs, (apply_config_volume (some v) (some v) rs).steps = [])
    ∧ (∀ (c t : Int) rs,
      (apply_config_volume (some c) (some t) rs).steps.length = (t - c).natAbs) := by
  refine ⟨?_, ?_, ?_, ?_⟩
  · intro rs
    norm_num [apply_config_volume]
    decide
  · intro rs
    norm_num [apply_config_volume]
    decide
  · intro v rs
    simp [apply_config_volume, lt_irrefl]
  · intro c t rs
    rcases lt_trichotomy t c with h | h | h
    · have h1 : ¬ t > c := by omega
      simp [apply_config_volume, h1, h]
      omega
    · subst h
      simp [apply_config_volume, lt_irrefl]
    · simp [apply_config_volume, h]
      omega

/-- C10: during configuration restore of the volume field the boolean
result of every step exchange is discarded — for every combination of
step outcomes, including all steps failing, the volume item lands in the
`success` list and never in `failed`. -/
theorem c10_volume_step_results_discarded :
    (∀ (c t : Int) rs rs',
      (apply_config_volume (some c) (some t) rs).success =
        (apply_config_volume (some c) (some t) rs').success
      ∧ (apply_config_volume (some c) (some t) rs).failed =
        (apply_config_volume (some c) (some t) rs').failed)
    ∧ (∀ (c t : Int) rs, (apply_config_volume (some c) (some t) rs).failed = [])
    ∧ (∀ (c t : Int) rs, (apply_config_volume (some c) (some t) rs).success =
      if c = t then ["audio.volume=" ++ toString t ++ " (unchanged)"]
      else ["audio.volume=" ++ toString t])
    ∧ (apply_config_volume (some 3) (some 7) ["F", "F", "F", "F"]).success =
        ["audio.volume=7"]
    ∧ (apply_config_volume (some 3) (some 7) ["F", "F", "F", "F"]).failed = []
    ∧ (apply_config_volume (some 3) (some 7) ["F", "F", "F", "F"]).step_results =
        [false, false, false, false] := by
  have hsucc : ∀ (c t : Int) rs, (apply_config_volume (some c) (some t) rs).success =
      if c = t then ["audio.volume=" ++ toString t ++ " (unchanged)"]
      else ["audio.volume=" ++ toString t] := by
    intro c t rs
    rcases lt_trichotomy t c with h | h | h
    · have h1 : ¬ t > c := by omega
      have h2 : ¬ c = t := by omega
      simp [apply_config_volume, h1, h, h2]
    · subst h
      simp [apply_config_volume, lt_irrefl]
    · have h2 : ¬ c = t := by omega
      simp [apply_config_volume, h, h2]
  have hfail : ∀ (c t : Int) rs, (apply_config_volume (some c) (some t) rs).failed = [] := by
    intro c t rs
    rcases lt_trichotomy t c with h | h | h
    · have h1 : ¬ t > c := by omega
      simp [apply_config_volume, h1, h]
    · subst h
      simp [apply_config_volume, lt_irrefl]
    · simp [apply_config_volume, h]
  refine ⟨?_, hfail, hsucc, by decide, by decide, by decide⟩
  intro c t rs rs'
  rw [hsucc c t rs, hsucc c t rs', hfail c t rs, hfail c t rs']
  exact ⟨rfl, rfl⟩

end Proj
